import Mathlib

/-!
# Verification of the QR tiling core (`mars/tensor/expressions/linalg/qr.py`)

A shallow embedding of `TensorQR.__call__` (shape/dtype resolution of the
logical QR request) and `TensorQR.tile` (lowering of the logical request to a
chunk-level DAG), together with theorems settling the specification's claims
about them.

External collaborators (the local QR primitive `np.linalg.qr` and the TSQR
merge-tree builder living in `linalg/core.py`, which is not part of the
provided sources) are modelled abstractly or from the specification, as
flagged in the corresponding doc comments.
-/

namespace MarsQR

/-- The numpy dtypes relevant to this core. -/
inductive DType where
  | int8 | int16 | int32 | int64
  | float16 | float32 | float64
  | complex64 | complex128
deriving DecidableEq, Repr

/-- Which output of a QR factorization a descriptor denotes
(the `side` keyword of `new_tensors` / `new_chunks` in the source). -/
inductive Side where
  | q
  | r
deriving DecidableEq, Repr

/-- An input tensor as `__call__` sees it: a shape (of any rank, so the rank
check can be modelled) and a dtype. -/
structure TensorIn where
  shape : List Nat
  dtype : DType
deriving DecidableEq, Repr

/-- An output tensor descriptor produced by `__call__` via `new_tensors`:
the `side` keyword, the resolved shape and dtype, and the method carried by
the operand the descriptor points back to (`self`, whose `_method` field was
set at construction). -/
structure TensorDesc where
  side : Side
  opMethod : String
  shape : List Nat
  dtype : DType
deriving DecidableEq, Repr

/-- The two structural failure modes of this core: a non-rank-2 input
(`LinAlgError('{n}-dimensional tensor given. ...')` in the source, the spec's
DimensionError, carrying the offending rank) and an unsupported method or
layout (`NotImplementedError('Only tsqr method supported for now')`, the
spec's UnsupportedMethodError). -/
inductive QRError where
  | dimensionError (ndim : Nat)
  | unsupportedMethod
deriving DecidableEq, Repr

/-- Embedding of `TensorQR.__call__`.

`method` is the `_method` field of the operand (`self`); `qrDtypes sh dt`
abstracts the dtype behaviour of the external primitive `np.linalg.qr` on a
matrix of shape `sh` filled with ones of dtype `dt`, returning the dtypes of
the `(q, r)` pair it would produce (`tiny_q.dtype, tiny_r.dtype` in the
source).

Mirrors the source line by line: rank check raising with the actual rank,
then `np.linalg.qr(np.ones((1, 1), dtype=a.dtype))`, then
`q_shape = a.shape if x > y else (x, x)` and
`r_shape = a.shape if x < y else (y, y)`, then `new_tensors` with the two
`side`/`dtype` keyword sets. -/
def tensorQRCall (method : String) (qrDtypes : Nat × Nat → DType → DType × DType)
    (a : TensorIn) : Except QRError (TensorDesc × TensorDesc) :=
  if a.shape.length ≠ 2 then
    .error (.dimensionError a.shape.length)
  else
    let tiny := qrDtypes (1, 1) a.dtype
    let x := a.shape.headD 0
    let y := (a.shape.tailD []).headD 0
    let q_shape := if x > y then a.shape else [x, x]
    let r_shape := if x < y then a.shape else [y, y]
    .ok ({ side := Side.q, opMethod := method, shape := q_shape, dtype := tiny.1 },
         { side := Side.r, opMethod := method, shape := r_shape, dtype := tiny.2 })

/-- Modelled from the spec: the dtype behaviour of the external local QR
primitive (`np.linalg.qr`, outside this repository) on a matrix of ones.
Integer and real inputs promote to floating point per standard QR semantics;
single-precision real/complex inputs stay single precision. Used only to
instantiate witnesses; every theorem quantifies over the primitive. -/
def npQRDtypes : Nat × Nat → DType → DType × DType := fun _ dt =>
  match dt with
  | DType.float32 => (DType.float32, DType.float32)
  | DType.complex64 => (DType.complex64, DType.complex64)
  | DType.complex128 => (DType.complex128, DType.complex128)
  | _ => (DType.float64, DType.float64)

/-- A chunk of the tiled input tensor: its position in the partition grid and
its shape. -/
structure Chunk where
  index : Nat × Nat
  shape : List Nat
deriving DecidableEq, Repr

/-- The tiled input tensor as `tile` sees it (`op.input`): logical shape and
dtype, the partition grid shape (`chunk_shape`), and the list of chunks in
grid order. -/
structure InTensor where
  shape : List Nat
  dtype : DType
  chunk_shape : Nat × Nat
  chunks : List Chunk
deriving DecidableEq, Repr

/-- The logical QR operation as `tile` sees it: its key and method, its input
tensor, and the metadata of its two output tensors (read off `op.outputs` at
the start of `tile`: `q_dtype, r_dtype, q_shape, r_shape`). -/
structure QRTileOp where
  key : Nat
  method : String
  input : InTensor
  q_shape : List Nat
  q_dtype : DType
  r_shape : List Nat
  r_dtype : DType
deriving DecidableEq, Repr

/-- The kind of a chunk-level node: a copy of the QR operand applied to a raw
operand (`qr`, what `op.copy().reset_key()` produces in the single-chunk
branch and what each leaf of the TSQR tree runs), a merge factoring the
vertical stack of R factors (`rmerge`), or a Q back-substitution composing a
local Q with the corresponding slice of an ancestor merge's Q (`qmul`). -/
inductive NodeKind where
  | qr
  | rmerge
  | qmul
deriving DecidableEq, Repr

/-- A chunk-level DAG node. `input i` refers to chunk `i` of the tiled input
tensor; `opn` is an operation output chunk, carrying the key of the operand
that produces it, the node kind, the operand's method, which side (`q`/`r`)
of the factorization this chunk is, the operand's input nodes in order, the
chunk's grid index and its shape. Two output chunks of one operand share its
key. -/
inductive CNode where
  | input (i : Nat)
  | opn (opKey : Nat) (kind : NodeKind) (method : String) (side : Side)
      (inputs : List CNode) (index : Nat × Nat) (shape : List Nat)

/-- A tiled output tensor: the producing operand's key, the logical shape,
dtype and `nsplits` metadata, and the output chunks. -/
structure TiledTensor where
  opKey : Nat
  shape : List Nat
  dtype : DType
  nsplits : List Nat × List Nat
  chunks : List CNode

/-- Modelled from the spec: leaf node of the TSQR tree — a local QR on row
block `j` (§4.3 step 1), producing the `side` output. `n` is the column count
of the input. -/
def leafNode (op : QRTileOp) (fresh : Nat → Nat) (s : Side) (j : Nat) : CNode :=
  let n := ((op.input.shape.tailD []).headD 0)
  let rows := ((op.input.chunks.getD j ⟨(0, 0), []⟩).shape.headD 0)
  CNode.opn (fresh (1 + j)) NodeKind.qr op.method s [CNode.input j] (j, 0)
    (match s with | Side.q => [rows, n] | Side.r => [n, n])

/-- Modelled from the spec: the merge node of the TSQR tree — a local QR on
the vertical stack of all leaf R factors, in ascending block-index order
(§4.3 steps 2-3, the flat all-at-once grouping the spec allows), producing
the `side` output. -/
def mergeNode (op : QRTileOp) (fresh : Nat → Nat) (s : Side) : CNode :=
  let k := op.input.chunk_shape.1
  let n := ((op.input.shape.tailD []).headD 0)
  CNode.opn (fresh 0) NodeKind.rmerge op.method s
    ((List.range k).map (leafNode op fresh Side.r)) (0, 0)
    (match s with | Side.q => [k * n, n] | Side.r => [n, n])

/-- Modelled from the spec: the Q back-substitution node for row block `j` —
the product of block `j`'s local Q with its row slice of the merge's Q
(§4.4). -/
def finalQNode (op : QRTileOp) (fresh : Nat → Nat) (j : Nat) : CNode :=
  let n := ((op.input.shape.tailD []).headD 0)
  let rows := ((op.input.chunks.getD j ⟨(0, 0), []⟩).shape.headD 0)
  CNode.opn (fresh (1 + op.input.chunk_shape.1 + j)) NodeKind.qmul op.method Side.q
    [leafNode op fresh Side.q j, mergeNode op fresh Side.q] (j, 0) [rows, n]

/-- Modelled from the spec: `TSQR.tile`, the merge-tree builder of
`mars/tensor/expressions/linalg/core.py`, which is not among the provided
sources (`qr.py` only delegates to it via `super(TensorQR, cls).tile(op)`).
Per §4.3: a partition with more than one column of blocks (short-and-fat) is
rejected with UnsupportedMethodError; otherwise build one leaf local-QR node
per row block, merge all R factors (ascending block order) into the root R,
and attach one Q back-substitution node per block; per §4.5 the global Q's
chunks are the per-block final Q nodes with row splits equal to the block row
counts, and the root R is the sole chunk of the global R. -/
def tsqrTile (op : QRTileOp) (fresh : Nat → Nat) :
    Except QRError (TiledTensor × TiledTensor) :=
  if op.input.chunk_shape.2 ≠ 1 then
    .error QRError.unsupportedMethod
  else
    let k := op.input.chunk_shape.1
    let n := ((op.input.shape.tailD []).headD 0)
    let rows := fun j => ((op.input.chunks.getD j ⟨(0, 0), []⟩).shape.headD 0)
    .ok ({ opKey := op.key, shape := op.q_shape, dtype := op.q_dtype,
           nsplits := ((List.range k).map rows, [n]),
           chunks := (List.range k).map (finalQNode op fresh) },
         { opKey := op.key, shape := op.r_shape, dtype := op.r_dtype,
           nsplits := ([n], [n]),
           chunks := [mergeNode op fresh Side.r] })

/-- Embedding of `TensorQR.tile`. `fresh` supplies the keys handed out by
`reset_key()` (node identity; everything else is a function of `op`).

Mirrors the source: if `in_tensor.chunk_shape == (1, 1)`, take the single
input chunk, make `chunk_op = op.copy().reset_key()` (a copy of the QR
operand itself, with a fresh key), create its two output chunks at the input
chunk's index with the full `q_shape`/`r_shape`, and wrap them as the two
output tensors with `nsplits ((1,), (1,))`; elif `op.method == 'tsqr'`,
delegate to the TSQR tree builder; else raise
`NotImplementedError('Only tsqr method supported for now')`. -/
def tensorQRTile (op : QRTileOp) (fresh : Nat → Nat) :
    Except QRError (TiledTensor × TiledTensor) :=
  if op.input.chunk_shape = (1, 1) then
    let in_chunk := op.input.chunks.headD ⟨(0, 0), []⟩
    let chunkOpKey := fresh 0
    let q_chunk := CNode.opn chunkOpKey NodeKind.qr op.method Side.q
      [CNode.input 0] in_chunk.index op.q_shape
    let r_chunk := CNode.opn chunkOpKey NodeKind.qr op.method Side.r
      [CNode.input 0] in_chunk.index op.r_shape
    .ok ({ opKey := op.key, shape := op.q_shape, dtype := op.q_dtype,
           nsplits := ([1], [1]), chunks := [q_chunk] },
         { opKey := op.key, shape := op.r_shape, dtype := op.r_dtype,
           nsplits := ([1], [1]), chunks := [r_chunk] })
  else if op.method = "tsqr" then
    tsqrTile op fresh
  else
    .error QRError.unsupportedMethod

mutual

/-- Erase node identity: zero every operand key, keeping kinds, methods,
sides, edges (input lists), indices and shapes. -/
def CNode.strip : CNode → CNode
  | CNode.input i => CNode.input i
  | CNode.opn _ kd m s ins idx sh => CNode.opn 0 kd m s (stripList ins) idx sh

/-- `CNode.strip` mapped over a list of nodes. -/
def stripList : List CNode → List CNode
  | [] => []
  | c :: cs => c.strip :: stripList cs

end

/-- Erase node identity from a tiled tensor: zero its operand key and the
keys of all its chunk nodes. -/
def stripTensor (t : TiledTensor) : TiledTensor :=
  { t with opKey := 0, chunks := stripList t.chunks }

/-- Erase node identity from a tiling result. -/
def stripResult :
    Except QRError (TiledTensor × TiledTensor) →
      Except QRError (TiledTensor × TiledTensor)
  | .error e => .error e
  | .ok (q, r) => .ok (stripTensor q, stripTensor r)

mutual

/-- Modelled from the spec: the value a chunk-level node computes when the
external execution engine runs the DAG (§6: the engine consumes typed nodes;
§4.2-§4.5 give each kind's semantics). Parametrised over the value domain and
the external primitives: `qrPrim` is the local QR primitive
(`localQR(block) -> (Q, R)`), `stk` vertically stacks operands, `mul` is
matrix multiplication and `slc i` takes the row slice belonging to block `i`.
`data i` is the materialised content of input chunk `i`. -/
def evalNode {V : Type} (qrPrim : V → V × V) (stk : List V → V)
    (mul : V → V → V) (slc : Nat → V → V) (data : Nat → V) (dflt : V) :
    CNode → V
  | CNode.input i => data i
  | CNode.opn _ kd _ s ins idx _ =>
    let vs := evalList qrPrim stk mul slc data dflt ins
    match kd with
    | NodeKind.qr =>
      let v := vs.headD dflt
      (match s with | Side.q => (qrPrim v).1 | Side.r => (qrPrim v).2)
    | NodeKind.rmerge =>
      let v := stk vs
      (match s with | Side.q => (qrPrim v).1 | Side.r => (qrPrim v).2)
    | NodeKind.qmul =>
      mul (vs.headD dflt) (slc idx.1 ((vs.tailD []).headD dflt))

/-- `evalNode` mapped over a list of nodes. -/
def evalList {V : Type} (qrPrim : V → V × V) (stk : List V → V)
    (mul : V → V → V) (slc : Nat → V → V) (data : Nat → V) (dflt : V) :
    List CNode → List V
  | [] => []
  | c :: cs => evalNode qrPrim stk mul slc data dflt c ::
      evalList qrPrim stk mul slc data dflt cs

end

/-- Directly invoking the local QR primitive on a single block, as the spec's
trivial-partition equivalence clause words it. -/
def directLocalQR {V : Type} (qrPrim : V → V × V) (block : V) : V × V :=
  qrPrim block

theorem stripList_map (l : List CNode) : stripList l = l.map CNode.strip := by
  induction l with
  | nil => rfl
  | cons c cs ih => simp [stripList, ih]

theorem strip_opn (k : Nat) (kd : NodeKind) (m : String) (s : Side)
    (ins : List CNode) (idx : Nat × Nat) (sh : List Nat) :
    (CNode.opn k kd m s ins idx sh).strip =
      CNode.opn 0 kd m s (stripList ins) idx sh := rfl

theorem strip_leafNode (op : QRTileOp) (f g : Nat → Nat) (s : Side) (j : Nat) :
    (leafNode op f s j).strip = (leafNode op g s j).strip := rfl

theorem strip_mergeNode (op : QRTileOp) (f g : Nat → Nat) (s : Side) :
    (mergeNode op f s).strip = (mergeNode op g s).strip := by
  simp only [mergeNode]
  rw [strip_opn, strip_opn]
  simp only [stripList_map, List.map_map]
  congr 1

theorem strip_finalQNode (op : QRTileOp) (f g : Nat → Nat) (j : Nat) :
    (finalQNode op f j).strip = (finalQNode op g j).strip := by
  simp only [finalQNode]
  rw [strip_opn, strip_opn]
  simp only [stripList]
  rw [strip_leafNode op f g Side.q j, strip_mergeNode op f g Side.q]

/-- The shape/dtype metadata of a `__call__` result, with the operand link
(and hence the method) erased. -/
def callMeta : Except QRError (TensorDesc × TensorDesc) →
    Except QRError ((List Nat × DType) × (List Nat × DType))
  | .error e => .error e
  | .ok (q, r) => .ok ((q.shape, q.dtype), (r.shape, r.dtype))

/-- C1: for every rank-2 input of shape `(x, y)`, the QR call resolves output
shapes by the tall/wide/square rule: if `x > y` then `Q : (x, y)` and
`R : (y, y)`; if `x < y` then `Q : (x, x)` and `R : (x, y)`; if `x = y` then
`Q : (x, x)` and `R : (y, y)`. -/
theorem qr_call_shape_rule (m : String)
    (qrDtypes : Nat × Nat → DType → DType × DType) (x y : Nat) (dt : DType) :
    ∃ q r, tensorQRCall m qrDtypes ⟨[x, y], dt⟩ = Except.ok (q, r) ∧
      (x > y → q.shape = [x, y] ∧ r.shape = [y, y]) ∧
      (x < y → q.shape = [x, x] ∧ r.shape = [x, y]) ∧
      (x = y → q.shape = [x, x] ∧ r.shape = [y, y]) := by
  refine ⟨⟨Side.q, m, if x > y then [x, y] else [x, x], (qrDtypes (1, 1) dt).1⟩,
         ⟨Side.r, m, if x < y then [x, y] else [y, y], (qrDtypes (1, 1) dt).2⟩,
         rfl, fun h => ?_, fun h => ?_, fun h => ?_⟩
  · exact ⟨if_pos h, if_neg (by omega)⟩
  · exact ⟨if_neg (by omega), if_pos h⟩
  · exact ⟨if_neg (by omega), if_neg (by omega)⟩

/-- Witness for C1 at the spec's tall example `x = 9, y = 6`. -/
theorem qr_call_shape_rule_witness :
    ∃ q r, tensorQRCall "tsqr" npQRDtypes ⟨[9, 6], DType.float64⟩ =
        Except.ok (q, r) ∧
      (9 > 6 → q.shape = [9, 6] ∧ r.shape = [6, 6]) ∧
      (9 < 6 → q.shape = [9, 9] ∧ r.shape = [9, 6]) ∧
      (9 = 6 → q.shape = [9, 9] ∧ r.shape = [6, 6]) :=
  qr_call_shape_rule "tsqr" npQRDtypes 9 6 DType.float64

/-- C3: for every input whose rank is not 2, the QR call fails with the
dimension error carrying the actual rank, returned in place of (hence before
the construction of) any output tensor descriptor. -/
theorem qr_call_rank_error (m : String)
    (qrDtypes : Nat × Nat → DType → DType × DType) (a : TensorIn)
    (h : a.shape.length ≠ 2) :
    tensorQRCall m qrDtypes a =
      Except.error (QRError.dimensionError a.shape.length) := by
  unfold tensorQRCall
  rw [if_pos h]

/-- Witness for C3: a 3-D input is rejected with rank 3 reported. -/
theorem qr_call_rank_error_witness :
    tensorQRCall "tsqr" npQRDtypes ⟨[2, 3, 4], DType.float64⟩ =
      Except.error (QRError.dimensionError 3) :=
  qr_call_rank_error "tsqr" npQRDtypes ⟨[2, 3, 4], DType.float64⟩ (by decide)

/-- C5: for every rank-2 input, the QR call resolves the output dtypes by
running the local QR primitive on a 1×1 matrix of the input dtype, assigning
the primitive's Q dtype to the Q output and its R dtype to the R output,
independently — for every possible dtype behaviour of the primitive. -/
theorem qr_call_dtype_rule (m : String)
    (qrDtypes : Nat × Nat → DType → DType × DType) (a : TensorIn)
    (h : a.shape.length = 2) :
    ∃ q r, tensorQRCall m qrDtypes a = Except.ok (q, r) ∧
      q.dtype = (qrDtypes (1, 1) a.dtype).1 ∧
      r.dtype = (qrDtypes (1, 1) a.dtype).2 := by
  unfold tensorQRCall
  rw [if_neg (by omega)]
  exact ⟨_, _, rfl, rfl, rfl⟩

/-- Witness for C5: an `int32` input takes whatever dtypes the primitive
produces on the 1×1 ones matrix. -/
theorem qr_call_dtype_rule_witness :
    ∃ q r, tensorQRCall "tsqr" npQRDtypes ⟨[3, 3], DType.int32⟩ =
        Except.ok (q, r) ∧
      q.dtype = (npQRDtypes (1, 1) DType.int32).1 ∧
      r.dtype = (npQRDtypes (1, 1) DType.int32).2 :=
  qr_call_dtype_rule "tsqr" npQRDtypes ⟨[3, 3], DType.int32⟩ rfl

/-- C10: the shapes and dtypes of the `(Q, R)` descriptors returned by the
QR call depend only on the input tensor's shape and dtype, not on the method
argument: two calls with the same input and different methods produce
identical shape/dtype metadata. -/
theorem qr_call_method_independent (m1 m2 : String)
    (qrDtypes : Nat × Nat → DType → DType × DType) (a : TensorIn) :
    callMeta (tensorQRCall m1 qrDtypes a) =
      callMeta (tensorQRCall m2 qrDtypes a) := by
  by_cases h : a.shape.length ≠ 2
  · simp only [tensorQRCall, if_pos h]
  · simp only [tensorQRCall, if_neg h]
    rfl

/-- Witness for C10 at a concrete input and two distinct methods. -/
theorem qr_call_method_independent_witness :
    callMeta (tensorQRCall "tsqr" npQRDtypes ⟨[4, 2], DType.float32⟩) =
      callMeta (tensorQRCall "sfqr" npQRDtypes ⟨[4, 2], DType.float32⟩) :=
  qr_call_method_independent "tsqr" "sfqr" npQRDtypes ⟨[4, 2], DType.float32⟩

/-- A single-chunk tile request used in witnesses: a 4×2 input in one chunk. -/
def sampleOpSingle : QRTileOp :=
  { key := 7, method := "tsqr",
    input := { shape := [4, 2], dtype := DType.float64, chunk_shape := (1, 1),
               chunks := [⟨(0, 0), [4, 2]⟩] },
    q_shape := [4, 2], q_dtype := DType.float64,
    r_shape := [2, 2], r_dtype := DType.float64 }

/-- A three-row-block tile request used in witnesses: a 6×2 input split into
three 2×2 row blocks. -/
def sampleOpMulti : QRTileOp :=
  { key := 8, method := "tsqr",
    input := { shape := [6, 2], dtype := DType.float64, chunk_shape := (3, 1),
               chunks := [⟨(0, 0), [2, 2]⟩, ⟨(1, 0), [2, 2]⟩, ⟨(2, 0), [2, 2]⟩] },
    q_shape := [6, 2], q_dtype := DType.float64,
    r_shape := [2, 2], r_dtype := DType.float64 }

/-- A two-column-block tile request used in witnesses: a 2×6 input split into
two 2×3 column blocks (the short-and-fat layout). -/
def sampleOpWide : QRTileOp :=
  { key := 9, method := "tsqr",
    input := { shape := [2, 6], dtype := DType.float64, chunk_shape := (1, 2),
               chunks := [⟨(0, 0), [2, 3]⟩, ⟨(0, 1), [2, 3]⟩] },
    q_shape := [2, 2], q_dtype := DType.float64,
    r_shape := [2, 6], r_dtype := DType.float64 }

/-- C2: for every tile request whose input partition has exactly one chunk
(`chunk_shape = (1, 1)`), tiling produces exactly one chunk-level QR node
(one operand key shared by the Q and R chunks) consuming that chunk, whose Q
and R chunk shapes equal the full global Q and R shapes, and both output
tensors carry `nsplits ((1,), (1,))`. -/
theorem tile_single_chunk (op : QRTileOp) (fresh : Nat → Nat)
    (h : op.input.chunk_shape = (1, 1)) :
    ∃ qt rt qc rc,
      tensorQRTile op fresh = Except.ok (qt, rt) ∧
      qt.chunks = [qc] ∧ rt.chunks = [rc] ∧
      (∃ key idx,
        qc = CNode.opn key NodeKind.qr op.method Side.q [CNode.input 0] idx
          op.q_shape ∧
        rc = CNode.opn key NodeKind.qr op.method Side.r [CNode.input 0] idx
          op.r_shape) ∧
      qt.shape = op.q_shape ∧ rt.shape = op.r_shape ∧
      qt.nsplits = ([1], [1]) ∧ rt.nsplits = ([1], [1]) := by
  unfold tensorQRTile
  rw [if_pos h]
  exact ⟨_, _, _, _, rfl, rfl, rfl, ⟨fresh 0, _, rfl, rfl⟩, rfl, rfl, rfl, rfl⟩

/-- Witness for C2 on the concrete single-chunk request. -/
theorem tile_single_chunk_witness :
    ∃ qt rt qc rc,
      tensorQRTile sampleOpSingle (fun k => 100 + k) = Except.ok (qt, rt) ∧
      qt.chunks = [qc] ∧ rt.chunks = [rc] ∧
      (∃ key idx,
        qc = CNode.opn key NodeKind.qr sampleOpSingle.method Side.q
          [CNode.input 0] idx sampleOpSingle.q_shape ∧
        rc = CNode.opn key NodeKind.qr sampleOpSingle.method Side.r
          [CNode.input 0] idx sampleOpSingle.r_shape) ∧
      qt.shape = sampleOpSingle.q_shape ∧ rt.shape = sampleOpSingle.r_shape ∧
      qt.nsplits = ([1], [1]) ∧ rt.nsplits = ([1], [1]) :=
  tile_single_chunk sampleOpSingle (fun k => 100 + k) rfl

/-- C4: for every tile request on a multi-chunk partition whose method is not
`'tsqr'`, tiling fails with the unsupported-method error. -/
theorem tile_bad_method (op : QRTileOp) (fresh : Nat → Nat)
    (h1 : op.input.chunk_shape ≠ (1, 1)) (h2 : op.method ≠ "tsqr") :
    tensorQRTile op fresh = Except.error QRError.unsupportedMethod := by
  unfold tensorQRTile
  rw [if_neg h1, if_neg h2]

/-- Witness for C4: a three-chunk request with method `'lu'` is rejected. -/
theorem tile_bad_method_witness :
    tensorQRTile { sampleOpMulti with method := "lu" } (fun k => k) =
      Except.error QRError.unsupportedMethod :=
  tile_bad_method { sampleOpMulti with method := "lu" } (fun k => k)
    (by decide) (by decide)

/-- C6: for every tile request using method `'tsqr'` on a partition with more
than one column of blocks (short-and-fat layout), tiling fails with the
unsupported-method error. -/
theorem tile_tsqr_multicol (op : QRTileOp) (fresh : Nat → Nat)
    (h1 : op.method = "tsqr") (h2 : 1 < op.input.chunk_shape.2) :
    tensorQRTile op fresh = Except.error QRError.unsupportedMethod := by
  have hne : op.input.chunk_shape ≠ (1, 1) := by
    intro hc
    rw [hc] at h2
    exact absurd h2 (by norm_num)
  unfold tensorQRTile tsqrTile
  rw [if_neg hne, if_pos h1, if_pos (by omega)]

/-- Witness for C6: the two-column-block request with method `'tsqr'` is
rejected. -/
theorem tile_tsqr_multicol_witness :
    tensorQRTile sampleOpWide (fun k => k) =
      Except.error QRError.unsupportedMethod :=
  tile_tsqr_multicol sampleOpWide (fun k => k) rfl (by decide)

/-- C9: for every tile request whose partition has exactly one chunk, the
single-block branch is taken before the method is examined, so tiling
succeeds for every method value; the method-validation error is unreachable
when `chunk_shape = (1, 1)`. -/
theorem tile_single_chunk_any_method (op : QRTileOp) (fresh : Nat → Nat)
    (h : op.input.chunk_shape = (1, 1)) :
    ∃ res, tensorQRTile op fresh = Except.ok res := by
  unfold tensorQRTile
  rw [if_pos h]
  exact ⟨_, rfl⟩

/-- Witness for C9: a single-chunk request with method `'sfqr'` — a method
that a multi-chunk partition would reject — still tiles successfully. -/
theorem tile_single_chunk_any_method_witness :
    ∃ res, tensorQRTile { sampleOpSingle with method := "sfqr" } (fun k => k) =
      Except.ok res :=
  tile_single_chunk_any_method { sampleOpSingle with method := "sfqr" }
    (fun k => k) rfl

/-- C7: for every single-block partition, the tiled result follows the same
numeric path as directly invoking the local QR primitive on that block: the
single chunk-level node is a copy of the QR operation (kind `qr`, the
operation's own method) applied to the input chunk, and under every
interpretation of the external primitives its evaluation equals the direct
local QR of the block's data. -/
theorem tile_single_chunk_refines_local_qr {V : Type} (op : QRTileOp)
    (fresh : Nat → Nat) (qrPrim : V → V × V) (stk : List V → V)
    (mul : V → V → V) (slc : Nat → V → V) (data : Nat → V) (dflt : V)
    (h : op.input.chunk_shape = (1, 1)) :
    ∃ qt rt qc rc,
      tensorQRTile op fresh = Except.ok (qt, rt) ∧
      qt.chunks = [qc] ∧ rt.chunks = [rc] ∧
      (∃ key idx,
        qc = CNode.opn key NodeKind.qr op.method Side.q [CNode.input 0] idx
          op.q_shape ∧
        rc = CNode.opn key NodeKind.qr op.method Side.r [CNode.input 0] idx
          op.r_shape) ∧
      (evalNode qrPrim stk mul slc data dflt qc,
        evalNode qrPrim stk mul slc data dflt rc) =
        directLocalQR qrPrim (data 0) := by
  unfold tensorQRTile
  rw [if_pos h]
  refine ⟨_, _, _, _, rfl, rfl, rfl, ⟨fresh 0, _, rfl, rfl⟩, ?_⟩
  simp [evalNode, evalList, directLocalQR]

/-- Witness for C7 on the concrete single-chunk request, with a concrete
interpretation of the primitives over natural numbers. -/
theorem tile_single_chunk_refines_local_qr_witness :
    ∃ qt rt qc rc,
      tensorQRTile sampleOpSingle (fun k => 50 + k) = Except.ok (qt, rt) ∧
      qt.chunks = [qc] ∧ rt.chunks = [rc] ∧
      (∃ key idx,
        qc = CNode.opn key NodeKind.qr sampleOpSingle.method Side.q
          [CNode.input 0] idx sampleOpSingle.q_shape ∧
        rc = CNode.opn key NodeKind.qr sampleOpSingle.method Side.r
          [CNode.input 0] idx sampleOpSingle.r_shape) ∧
      (evalNode (fun n => (n + 1, 2 * n + 3)) (fun l => l.foldr (· + ·) 0)
        (· * ·) (fun i v => v + i) (fun i => 5 + i) 0 qc,
        evalNode (fun n => (n + 1, 2 * n + 3)) (fun l => l.foldr (· + ·) 0)
        (· * ·) (fun i v => v + i) (fun i => 5 + i) 0 rc) =
        directLocalQR (fun n => (n + 1, 2 * n + 3)) 5 :=
  tile_single_chunk_refines_local_qr sampleOpSingle (fun k => 50 + k)
    (fun n => (n + 1, 2 * n + 3)) (fun l => l.foldr (· + ·) 0) (· * ·)
    (fun i v => v + i) (fun i => 5 + i) 0 rfl

/-- C8: tiling is deterministic up to node identity: two tiling passes over
the same logical request, with different key supplies, yield results that are
identical — shapes, dtypes, `nsplits`, chunk structure and edges — once every
operand key is erased. -/
theorem tile_deterministic_up_to_keys (op : QRTileOp) (f1 f2 : Nat → Nat) :
    stripResult (tensorQRTile op f1) = stripResult (tensorQRTile op f2) := by
  unfold tensorQRTile
  by_cases h : op.input.chunk_shape = (1, 1)
  · rw [if_pos h, if_pos h]
    simp only [stripResult, stripTensor, stripList, CNode.strip]
  · rw [if_neg h, if_neg h]
    by_cases hm : op.method = "tsqr"
    · rw [if_pos hm, if_pos hm]
      unfold tsqrTile
      by_cases hc : op.input.chunk_shape.2 ≠ 1
      · rw [if_pos hc, if_pos hc]
      · rw [if_neg hc, if_neg hc]
        have hq : stripList ((List.range op.input.chunk_shape.1).map
              (finalQNode op f1)) =
            stripList ((List.range op.input.chunk_shape.1).map
              (finalQNode op f2)) := by
          rw [stripList_map, stripList_map, List.map_map, List.map_map]
          exact List.map_congr_left fun j _ => strip_finalQNode op f1 f2 j
        have hr : stripList [mergeNode op f1 Side.r] =
            stripList [mergeNode op f2 Side.r] := by
          simp only [stripList]
          rw [strip_mergeNode op f1 f2 Side.r]
        simp only [stripResult, stripTensor]
        rw [hq, hr]
    · rw [if_neg hm, if_neg hm]

/-- Witness for C8: the three-row-block `'tsqr'` request tiled with two
different key supplies, equal after key erasure. -/
theorem tile_deterministic_up_to_keys_witness :
    stripResult (tensorQRTile sampleOpMulti (fun k => 10 + k)) =
      stripResult (tensorQRTile sampleOpMulti (fun k => 20 + k)) :=
  tile_deterministic_up_to_keys sampleOpMulti (fun k => 10 + k)
    (fun k => 20 + k)

end MarsQR
